import Mathlib

/-!
Shallow embedding of `examples/bmm350_forced_mode/bmm350_forced_mode.c`
(BMM350 sensor API example) and verification of its specification.

The C file reads magnetometer data in forced mode and computes a per-axis
RMS noise level over a fixed batch of `MAG_SAMPLE_COUNT = 100` samples.
C `double` values are modelled as real numbers; the noise routine's
accumulation loop is modelled as a recursion over the loop index, and the
`main` control flow relevant to error gating is modelled as an event trace
parameterised by the driver's `bmm350_enable_axes` status code.
-/

namespace BMM350

/-- Embedding of `struct bmm350_mag_temp_data` (from the driver header):
compensated magnetometer x, y, z data plus temperature. -/
structure bmm350_mag_temp_data where
  x : ℝ
  y : ℝ
  z : ℝ
  temperature : ℝ

/-- Embedding of `struct bmm350_mag_data`: compensated mag x, y, z data. -/
@[ext]
structure bmm350_mag_data where
  x : ℝ
  y : ℝ
  z : ℝ

/-- `#define MAG_SAMPLE_COUNT UINT8_C(100)` -/
def MAG_SAMPLE_COUNT : ℕ := 100

/-- The accumulation loop of `calculate_noise`: after `n` iterations the three
local accumulators `variance_x`, `variance_y`, `variance_z` hold the sums of
squared deviations of samples `0 .. n-1` from `avg_mag_data`.  The C body
adds `(mag_temp_data[index].a - avg_mag_data.a) * (mag_temp_data[index].a -
avg_mag_data.a)` to each accumulator. -/
def noise_loop (mag_temp_data : ℕ → bmm350_mag_temp_data)
    (avg_mag_data : bmm350_mag_data) : ℕ → ℝ × ℝ × ℝ
  | 0 => (0, 0, 0)
  | n + 1 =>
      let acc := noise_loop mag_temp_data avg_mag_data n
      (acc.1 + ((mag_temp_data n).x - avg_mag_data.x) *
          ((mag_temp_data n).x - avg_mag_data.x),
       acc.2.1 + ((mag_temp_data n).y - avg_mag_data.y) *
          ((mag_temp_data n).y - avg_mag_data.y),
       acc.2.2 + ((mag_temp_data n).z - avg_mag_data.z) *
          ((mag_temp_data n).z - avg_mag_data.z))

/-- Embedding of `calculate_noise`: the loop accumulates the three variance
sums over `MAG_SAMPLE_COUNT` samples, each is divided by `MAG_SAMPLE_COUNT`,
and the noise level is `sqrt(variance) * 1000` per axis.  The C array argument
is modelled as an index function (the loop touches indices `0 .. 99`). -/
noncomputable def calculate_noise (mag_temp_data : ℕ → bmm350_mag_temp_data)
    (avg_mag_data : bmm350_mag_data) : bmm350_mag_data :=
  let v := noise_loop mag_temp_data avg_mag_data MAG_SAMPLE_COUNT
  { x := Real.sqrt (v.1 / MAG_SAMPLE_COUNT) * 1000
    y := Real.sqrt (v.2.1 / MAG_SAMPLE_COUNT) * 1000
    z := Real.sqrt (v.2.2 / MAG_SAMPLE_COUNT) * 1000 }

/-- The accumulators of `noise_loop` after `n` iterations are the sums of
squared per-axis deviations over indices `0 .. n-1`. -/
theorem noise_loop_eq_sum (mag_temp_data : ℕ → bmm350_mag_temp_data)
    (avg_mag_data : bmm350_mag_data) (n : ℕ) :
    noise_loop mag_temp_data avg_mag_data n =
      (∑ i ∈ Finset.range n, ((mag_temp_data i).x - avg_mag_data.x) ^ 2,
       ∑ i ∈ Finset.range n, ((mag_temp_data i).y - avg_mag_data.y) ^ 2,
       ∑ i ∈ Finset.range n, ((mag_temp_data i).z - avg_mag_data.z) ^ 2) := by
  induction n with
  | zero => simp [noise_loop]
  | succ n ih =>
      simp only [noise_loop, ih, Finset.sum_range_succ, pow_two]

/-- Modelled from the spec: the NoiseAnalyzer contract
`computeNoise(batch: SampleBatch, mean: MeanVector, scale: float) -> NoiseResult`
(spec section 4.1), whose general form (arbitrary batch length `N` and scale
factor) is not in `src/` — the reference `calculate_noise` is its
specialization to `N = MAG_SAMPLE_COUNT` and `scale = 1000`.  For each axis
`a`: `variance_a = (1/N) * Σ (batch[i].a - mean.a)^2`;
`result.a = sqrt(variance_a) * scale`. -/
noncomputable def computeNoise (batch : List bmm350_mag_temp_data)
    (mean : bmm350_mag_data) (scale : ℝ) : bmm350_mag_data :=
  let N : ℝ := batch.length
  { x := Real.sqrt ((1 / N) * (batch.map (fun s => (s.x - mean.x) ^ 2)).sum) * scale
    y := Real.sqrt ((1 / N) * (batch.map (fun s => (s.y - mean.y) ^ 2)).sum) * scale
    z := Real.sqrt ((1 / N) * (batch.map (fun s => (s.z - mean.z) ^ 2)).sum) * scale }

/-- Modelled from the spec: in a reimplementation, violating the single
precondition "batch length must be > 0" is reported as an invalid-argument
error rather than silently producing NaN/Inf (spec section 7). -/
noncomputable def computeNoiseChecked (batch : List bmm350_mag_temp_data)
    (mean : bmm350_mag_data) (scale : ℝ) : Except String bmm350_mag_data :=
  if batch.length = 0 then
    Except.error "invalid-argument: batch length must be > 0"
  else
    Except.ok (computeNoise batch mean scale)

/-- `calculate_noise` refines `computeNoise`: on the batch formed by samples
`0 .. MAG_SAMPLE_COUNT - 1`, it equals the spec contract at `scale = 1000`. -/
theorem calculate_noise_eq_computeNoise (mag_temp_data : ℕ → bmm350_mag_temp_data)
    (avg_mag_data : bmm350_mag_data) :
    calculate_noise mag_temp_data avg_mag_data =
      computeNoise ((List.range MAG_SAMPLE_COUNT).map mag_temp_data)
        avg_mag_data 1000 := by
  have hsum : ∀ (F : bmm350_mag_temp_data → ℝ) (n : ℕ),
      (((List.range n).map mag_temp_data).map F).sum =
        ∑ i ∈ Finset.range n, F (mag_temp_data i) := by
    intro F n
    induction n with
    | zero => simp
    | succ n ih =>
        simp only [List.range_succ, List.map_append, List.sum_append,
          List.map_cons, List.map_nil, List.sum_cons, List.sum_nil,
          Finset.sum_range_succ, ih, add_zero]
  unfold calculate_noise computeNoise
  rw [noise_loop_eq_sum]
  simp only [hsum, List.length_map, List.length_range, one_div,
    inv_mul_eq_div]

/-- A batch of `MAG_SAMPLE_COUNT` samples, alternating `+1` and `-1` on the
x axis with y, z and temperature zero; its x deviations from the zero mean
have mean square 1. -/
def alt_batch : ℕ → bmm350_mag_temp_data := fun n =>
  if n % 2 = 0 then ⟨1, 0, 0, 0⟩ else ⟨-1, 0, 0, 0⟩

/-- C1: for every batch of N = MAG_SAMPLE_COUNT = 100 samples and every mean
vector, `calculate_noise` produces, for each axis a, the value
`sqrt((1/N) * Σ_{i=0}^{N-1} (batch[i].a - mean.a)^2) * 1000`: population
variance with divisor N (not N-1), square root, then the scale factor 1000. -/
theorem calculate_noise_population_rms (mag_temp_data : ℕ → bmm350_mag_temp_data)
    (avg_mag_data : bmm350_mag_data) :
    calculate_noise mag_temp_data avg_mag_data =
      { x := Real.sqrt ((1 / (MAG_SAMPLE_COUNT : ℝ)) *
            ∑ i ∈ Finset.range MAG_SAMPLE_COUNT,
              ((mag_temp_data i).x - avg_mag_data.x) ^ 2) * 1000
        y := Real.sqrt ((1 / (MAG_SAMPLE_COUNT : ℝ)) *
            ∑ i ∈ Finset.range MAG_SAMPLE_COUNT,
              ((mag_temp_data i).y - avg_mag_data.y) ^ 2) * 1000
        z := Real.sqrt ((1 / (MAG_SAMPLE_COUNT : ℝ)) *
            ∑ i ∈ Finset.range MAG_SAMPLE_COUNT,
              ((mag_temp_data i).z - avg_mag_data.z) ^ 2) * 1000 } := by
  unfold calculate_noise
  rw [noise_loop_eq_sum]
  simp only [one_div, inv_mul_eq_div]

/-- C9: for every batch and every mean vector, each of the three noise-level
values computed by `calculate_noise` is non-negative. -/
theorem calculate_noise_nonneg (mag_temp_data : ℕ → bmm350_mag_temp_data)
    (avg_mag_data : bmm350_mag_data) :
    0 ≤ (calculate_noise mag_temp_data avg_mag_data).x ∧
    0 ≤ (calculate_noise mag_temp_data avg_mag_data).y ∧
    0 ≤ (calculate_noise mag_temp_data avg_mag_data).z := by
  unfold calculate_noise
  refine ⟨?_, ?_, ?_⟩ <;>
    exact mul_nonneg (Real.sqrt_nonneg _) (by norm_num)

/-- C2: for every batch in which every sample's x, y, z components equal the
corresponding components of the mean vector (in particular the single-sample
case N = 1), the noise computation returns `{0, 0, 0}`. -/
theorem computeNoise_all_equal_eq_zero (batch : List bmm350_mag_temp_data)
    (mean : bmm350_mag_data) (scale : ℝ)
    (h : ∀ s ∈ batch, s.x = mean.x ∧ s.y = mean.y ∧ s.z = mean.z) :
    computeNoise batch mean scale = ⟨0, 0, 0⟩ := by
  have hx : (batch.map (fun s => (s.x - mean.x) ^ 2)).sum = 0 := by
    apply List.sum_eq_zero
    intro a ha
    obtain ⟨s, hs, rfl⟩ := List.mem_map.mp ha
    rw [(h s hs).1]
    ring
  have hy : (batch.map (fun s => (s.y - mean.y) ^ 2)).sum = 0 := by
    apply List.sum_eq_zero
    intro a ha
    obtain ⟨s, hs, rfl⟩ := List.mem_map.mp ha
    rw [(h s hs).2.1]
    ring
  have hz : (batch.map (fun s => (s.z - mean.z) ^ 2)).sum = 0 := by
    apply List.sum_eq_zero
    intro a ha
    obtain ⟨s, hs, rfl⟩ := List.mem_map.mp ha
    rw [(h s hs).2.2]
    ring
  unfold computeNoise
  simp [hx, hy, hz]

/-- Witness for C2: the single-sample batch (N = 1) whose sample equals the
mean gives `{0, 0, 0}`. -/
theorem computeNoise_all_equal_eq_zero_witness :
    computeNoise [⟨5, 6, 7, 25⟩] ⟨5, 6, 7⟩ 1000 = ⟨0, 0, 0⟩ :=
  computeNoise_all_equal_eq_zero [⟨5, 6, 7, 25⟩] ⟨5, 6, 7⟩ 1000 (by
    intro s hs
    rw [List.mem_singleton] at hs
    subst hs
    exact ⟨rfl, rfl, rfl⟩)

/-- C3: for a batch whose x deviations from the mean have mean square 1,
the computed x-axis noise level is exactly `sqrt(1) * 1000 = 1000`. -/
theorem calculate_noise_unit_mean_square (mag_temp_data : ℕ → bmm350_mag_temp_data)
    (avg_mag_data : bmm350_mag_data)
    (h : (∑ i ∈ Finset.range MAG_SAMPLE_COUNT,
        ((mag_temp_data i).x - avg_mag_data.x) ^ 2) / (MAG_SAMPLE_COUNT : ℝ) = 1) :
    (calculate_noise mag_temp_data avg_mag_data).x = 1000 := by
  unfold calculate_noise
  rw [noise_loop_eq_sum]
  dsimp only
  rw [h, Real.sqrt_one, one_mul]

/-- Witness for C3: the alternating `+1 / -1` batch about the zero mean has
x mean square 1 and x noise level exactly 1000. -/
theorem calculate_noise_unit_mean_square_witness :
    (∑ i ∈ Finset.range MAG_SAMPLE_COUNT,
        ((alt_batch i).x - (0 : ℝ)) ^ 2) / (MAG_SAMPLE_COUNT : ℝ) = 1 ∧
    (calculate_noise alt_batch ⟨0, 0, 0⟩).x = 1000 := by
  have h : (∑ i ∈ Finset.range MAG_SAMPLE_COUNT,
      ((alt_batch i).x - (0 : ℝ)) ^ 2) / (MAG_SAMPLE_COUNT : ℝ) = 1 := by
    have h1 : ∀ i ∈ Finset.range MAG_SAMPLE_COUNT,
        ((alt_batch i).x - (0 : ℝ)) ^ 2 = 1 := by
      intro i _
      unfold alt_batch
      by_cases hp : i % 2 = 0 <;> simp [hp]
    rw [Finset.sum_congr rfl h1]
    simp [MAG_SAMPLE_COUNT]
  exact ⟨h, calculate_noise_unit_mean_square alt_batch ⟨0, 0, 0⟩ h⟩

/-- C4: doubling the scale multiplier doubles every field of the result of
the noise computation. -/
theorem computeNoise_scale_linear (batch : List bmm350_mag_temp_data)
    (mean : bmm350_mag_data) (scale : ℝ) :
    computeNoise batch mean (2 * scale) =
      { x := 2 * (computeNoise batch mean scale).x
        y := 2 * (computeNoise batch mean scale).y
        z := 2 * (computeNoise batch mean scale).z } := by
  unfold computeNoise
  refine bmm350_mag_data.ext ?_ ?_ ?_ <;> dsimp only <;> ring

/-- The batch permuted by `σ` on the indices `0 .. MAG_SAMPLE_COUNT - 1`
(indices outside the batch are left as they are). -/
def permute_batch (σ : Equiv.Perm (Fin MAG_SAMPLE_COUNT))
    (mag_temp_data : ℕ → bmm350_mag_temp_data) : ℕ → bmm350_mag_temp_data :=
  fun n => if h : n < MAG_SAMPLE_COUNT then mag_temp_data (σ ⟨n, h⟩) else mag_temp_data n

/-- A per-axis sum of the noise loop is invariant under permuting the batch
indices. -/
theorem sum_permute (σ : Equiv.Perm (Fin MAG_SAMPLE_COUNT))
    (mag_temp_data : ℕ → bmm350_mag_temp_data) (F : bmm350_mag_temp_data → ℝ) :
    ∑ i ∈ Finset.range MAG_SAMPLE_COUNT, F (permute_batch σ mag_temp_data i) =
      ∑ i ∈ Finset.range MAG_SAMPLE_COUNT, F (mag_temp_data i) := by
  rw [← Fin.sum_univ_eq_sum_range fun i => F (permute_batch σ mag_temp_data i),
    ← Fin.sum_univ_eq_sum_range fun i => F (mag_temp_data i)]
  have h1 : ∀ i : Fin MAG_SAMPLE_COUNT,
      F (permute_batch σ mag_temp_data i) = F (mag_temp_data (σ i)) := by
    intro i
    simp [permute_batch, i.isLt]
  rw [Finset.sum_congr rfl fun i _ => h1 i]
  exact Equiv.sum_comp σ fun i => F (mag_temp_data i)

/-- C5: for every batch, every mean vector and every permutation of the batch
indices, the noise computation on the permuted batch equals the noise
computation on the original batch. -/
theorem calculate_noise_permute_invariant (σ : Equiv.Perm (Fin MAG_SAMPLE_COUNT))
    (mag_temp_data : ℕ → bmm350_mag_temp_data) (avg_mag_data : bmm350_mag_data) :
    calculate_noise (permute_batch σ mag_temp_data) avg_mag_data =
      calculate_noise mag_temp_data avg_mag_data := by
  unfold calculate_noise
  rw [noise_loop_eq_sum, noise_loop_eq_sum,
    sum_permute σ mag_temp_data fun s => (s.x - avg_mag_data.x) ^ 2,
    sum_permute σ mag_temp_data fun s => (s.y - avg_mag_data.y) ^ 2,
    sum_permute σ mag_temp_data fun s => (s.z - avg_mag_data.z) ^ 2]

/-- C6: the temperature fields do not influence the noise result: two batches
agreeing on every sample's x, y, z over the 100 used indices give identical
results for the same mean vector. -/
theorem calculate_noise_temperature_independent
    (mag1 mag2 : ℕ → bmm350_mag_temp_data) (avg_mag_data : bmm350_mag_data)
    (h : ∀ i < MAG_SAMPLE_COUNT, (mag1 i).x = (mag2 i).x ∧
        (mag1 i).y = (mag2 i).y ∧ (mag1 i).z = (mag2 i).z) :
    calculate_noise mag1 avg_mag_data = calculate_noise mag2 avg_mag_data := by
  have hx : (∑ i ∈ Finset.range MAG_SAMPLE_COUNT,
      ((mag1 i).x - avg_mag_data.x) ^ 2) =
      ∑ i ∈ Finset.range MAG_SAMPLE_COUNT, ((mag2 i).x - avg_mag_data.x) ^ 2 :=
    Finset.sum_congr rfl fun i hi => by rw [(h i (Finset.mem_range.mp hi)).1]
  have hy : (∑ i ∈ Finset.range MAG_SAMPLE_COUNT,
      ((mag1 i).y - avg_mag_data.y) ^ 2) =
      ∑ i ∈ Finset.range MAG_SAMPLE_COUNT, ((mag2 i).y - avg_mag_data.y) ^ 2 :=
    Finset.sum_congr rfl fun i hi => by rw [(h i (Finset.mem_range.mp hi)).2.1]
  have hz : (∑ i ∈ Finset.range MAG_SAMPLE_COUNT,
      ((mag1 i).z - avg_mag_data.z) ^ 2) =
      ∑ i ∈ Finset.range MAG_SAMPLE_COUNT, ((mag2 i).z - avg_mag_data.z) ^ 2 :=
    Finset.sum_congr rfl fun i hi => by rw [(h i (Finset.mem_range.mp hi)).2.2]
  unfold calculate_noise
  rw [noise_loop_eq_sum, noise_loop_eq_sum, hx, hy, hz]

/-- Witness for C6: two constant batches agreeing on x, y, z but with
temperatures 25 and 30 give the same noise result. -/
theorem calculate_noise_temperature_independent_witness :
    calculate_noise (fun _ => ⟨1, 2, 3, 25⟩) ⟨1, 2, 3⟩ =
      calculate_noise (fun _ => ⟨1, 2, 3, 30⟩) ⟨1, 2, 3⟩ :=
  calculate_noise_temperature_independent (fun _ => ⟨1, 2, 3, 25⟩)
    (fun _ => ⟨1, 2, 3, 30⟩) ⟨1, 2, 3⟩ (fun _ _ => ⟨rfl, rfl, rfl⟩)

/-- A line calculate_noise writes to standard output: the header line and
the line with the three noise levels. -/
inductive output_line where
  | noise_header
  | noise_values (x y z : ℝ)

/-- The program state visible to a call of `calculate_noise`: the sample
array (passed as a const pointer), the mean argument (passed by value) and
the standard-output stream. -/
structure noise_call_state where
  mag_temp_data : ℕ → bmm350_mag_temp_data
  avg_mag_data : bmm350_mag_data
  stdout : List output_line

/-- Embedding of one call `calculate_noise(mag_temp_data, avg_mag_data)`
together with its effects: the body only reads the two inputs, writes local
accumulators, and prints the header and the three noise levels. -/
noncomputable def calculate_noise_call (s : noise_call_state) : noise_call_state :=
  let n := calculate_noise s.mag_temp_data s.avg_mag_data
  { mag_temp_data := s.mag_temp_data
    avg_mag_data := s.avg_mag_data
    stdout := s.stdout ++
      [output_line.noise_header, output_line.noise_values n.x n.y n.z] }

/-- C7: a call of `calculate_noise` leaves the sample batch and the mean
vector unchanged, and its only effect besides computing the result is
appending the two printed lines to standard output. -/
theorem calculate_noise_frame (s : noise_call_state) :
    (calculate_noise_call s).mag_temp_data = s.mag_temp_data ∧
    (calculate_noise_call s).avg_mag_data = s.avg_mag_data ∧
    (calculate_noise_call s).stdout = s.stdout ++
      [output_line.noise_header,
       output_line.noise_values
         (calculate_noise s.mag_temp_data s.avg_mag_data).x
         (calculate_noise s.mag_temp_data s.avg_mag_data).y
         (calculate_noise s.mag_temp_data s.avg_mag_data).z] :=
  ⟨rfl, rfl, rfl⟩

/-- C8: the batch used by the reference is non-empty
(`MAG_SAMPLE_COUNT > 0`); the checked analyzer fails exactly on an empty
batch, with an invalid-argument error; and on a non-empty batch the divisor
is non-zero and the computation succeeds with the unchecked result. -/
theorem computeNoiseChecked_empty_iff (batch : List bmm350_mag_temp_data)
    (mean : bmm350_mag_data) (scale : ℝ) :
    0 < MAG_SAMPLE_COUNT ∧
    (computeNoiseChecked batch mean scale =
        Except.error "invalid-argument: batch length must be > 0" ↔ batch = []) ∧
    (batch ≠ [] → ((batch.length : ℝ) ≠ 0 ∧
      computeNoiseChecked batch mean scale =
        Except.ok (computeNoise batch mean scale))) := by
  refine ⟨by norm_num [MAG_SAMPLE_COUNT], ⟨?_, ?_⟩, ?_⟩
  · intro h
    by_contra hne
    have hlen : ¬ batch.length = 0 := fun h0 => hne (List.length_eq_zero.mp h0)
    unfold computeNoiseChecked at h
    rw [if_neg hlen] at h
    exact absurd h (by simp)
  · intro h
    subst h
    rfl
  · intro hne
    have hlen : ¬ batch.length = 0 := fun h0 => hne (List.length_eq_zero.mp h0)
    refine ⟨Nat.cast_ne_zero.mpr hlen, ?_⟩
    unfold computeNoiseChecked
    rw [if_neg hlen]

/-- Witness for C8: a one-sample batch has non-zero divisor and the checked
analyzer succeeds on it with the unchecked result. -/
theorem computeNoiseChecked_empty_iff_witness :
    ((([⟨1, 2, 3, 4⟩] : List bmm350_mag_temp_data).length : ℝ) ≠ 0) ∧
    computeNoiseChecked [⟨1, 2, 3, 4⟩] ⟨0, 0, 0⟩ 1000 =
      Except.ok (computeNoise [⟨1, 2, 3, 4⟩] ⟨0, 0, 0⟩ 1000) :=
  (computeNoiseChecked_empty_iff [⟨1, 2, 3, 4⟩] ⟨0, 0, 0⟩ 1000).2.2 (by simp)

/-- `BMM350_OK` status code (`INT8_C(0)` in the driver API). -/
def BMM350_OK : ℤ := 0

/-- The two forced power modes requested by `main`. -/
inductive powermode where
  | forced
  | forced_fast

/-- The averaging settings requested by `main`. -/
inductive averaging where
  | no_avg
  | avg_2
  | avg_4

/-- The driver calls `main` makes, in program order.  `get_regs` carries the
register address; `set_odr_performance` carries the averaging setting (the
data rate is always 100 Hz). -/
inductive event where
  | interface_init
  | sensor_init
  | get_pmu_cmd_status_0
  | get_regs (reg : ℕ)
  | configure_interrupt
  | enable_interrupt
  | set_odr_performance (avg : averaging)
  | enable_axes
  | set_powermode (mode : powermode)
  | get_mag_data
  | noise_calc
  | deinit

/-- Events of the measurement sequence proper: power-mode changes, data
reads and noise computations. -/
def event.is_measurement : event → Bool
  | event.set_powermode _ => true
  | event.get_mag_data => true
  | event.noise_calc => true
  | _ => false

/-- The driver calls `main` makes before the `rslt == BMM350_OK` guard on
the result of `bmm350_enable_axes`. -/
def setup_events : List event :=
  [event.interface_init, event.sensor_init, event.get_pmu_cmd_status_0,
   event.get_regs 2, event.configure_interrupt, event.enable_interrupt,
   event.get_regs 46, event.set_odr_performance averaging.avg_4,
   event.enable_axes]

/-- A loop of `count` iterations each setting the power mode and reading one
compensated sample (combinations 2 through 6). -/
def forced_read_loop (mode : powermode) (count : ℕ) : List event :=
  (List.replicate count [event.set_powermode mode, event.get_mag_data]).flatten

/-- The driver calls of combinations 1 through 6, the three averaging passes
and the three noise computations, guarded by `rslt == BMM350_OK`. -/
def measurement_events : List event :=
  ([event.set_powermode powermode.forced_fast] ++
    List.replicate 10 event.get_mag_data) ++
  ([event.set_odr_performance averaging.avg_4] ++
    forced_read_loop powermode.forced_fast 10) ++
  ([event.set_odr_performance averaging.no_avg] ++
    forced_read_loop powermode.forced 10) ++
  ([event.set_odr_performance averaging.avg_4] ++
    forced_read_loop powermode.forced_fast MAG_SAMPLE_COUNT ++
    [event.noise_calc]) ++
  ([event.set_odr_performance averaging.no_avg] ++
    forced_read_loop powermode.forced MAG_SAMPLE_COUNT ++
    [event.noise_calc]) ++
  ([event.set_odr_performance averaging.avg_2] ++
    forced_read_loop powermode.forced_fast MAG_SAMPLE_COUNT ++
    [event.noise_calc])

/-- The trace of driver calls `main` makes, as a function of the status code
returned by `bmm350_enable_axes` (the only call whose result `main`
branches on): the measurement block runs only when that result is
`BMM350_OK`, and `bmm350_coines_deinit` runs in either case. -/
def mainTrace (enable_axes_rslt : ℤ) : List event :=
  setup_events ++
    (if enable_axes_rslt = BMM350_OK then measurement_events else []) ++
    [event.deinit]

/-- C10: if `bmm350_enable_axes` did not return `BMM350_OK`, `main` performs
no power-mode change, no data read and no noise computation before
deinitializing; and conversely any measurement event in the trace implies
the enable-axes call returned `BMM350_OK`. -/
theorem main_measurement_gated (enable_axes_rslt : ℤ) :
    (enable_axes_rslt ≠ BMM350_OK →
      mainTrace enable_axes_rslt = setup_events ++ [event.deinit] ∧
      ∀ e ∈ mainTrace enable_axes_rslt, e.is_measurement = false) ∧
    ((∃ e ∈ mainTrace enable_axes_rslt, e.is_measurement = true) →
      enable_axes_rslt = BMM350_OK) := by
  have key : enable_axes_rslt ≠ BMM350_OK →
      mainTrace enable_axes_rslt = setup_events ++ [event.deinit] ∧
      ∀ e ∈ mainTrace enable_axes_rslt, e.is_measurement = false := by
    intro h
    have ht : mainTrace enable_axes_rslt = setup_events ++ [event.deinit] := by
      unfold mainTrace
      rw [if_neg h]
      simp
    refine ⟨ht, ?_⟩
    rw [ht]
    decide
  refine ⟨key, ?_⟩
  rintro ⟨e, he, hm⟩
  by_contra hr
  have h2 := (key hr).2 e he
  rw [hm] at h2
  exact Bool.noConfusion h2

/-- Witness for C10: with a failing enable-axes status (-2), the trace is the
setup calls followed directly by deinit, with no measurement events. -/
theorem main_measurement_gated_witness :
    mainTrace (-2) = setup_events ++ [event.deinit] ∧
    ∀ e ∈ mainTrace (-2), e.is_measurement = false :=
  (main_measurement_gated (-2)).1 (by decide)

end BMM350
